import Mathlib

/-!
Verification of the bookstore cart/order/payment core.

The repository ships its business logic in `models.py` (classes `Book`,
`CartItem`, `Cart`, `User`, `Order`, `PaymentGateway`); only the test
suites importing that module are available here.  The definitions below
are therefore modelled from the specification's description of those
classes (sections 3 and 4 of the spec), with the test files consulted
for the concrete method names and field names (`add_book`, `remove_book`,
`update_quantity`, `items`, `total_amount`, `paid`, `confirmed`, ...).
Python dictionaries become association lists, mutation becomes explicit
state passing, and fallible operations return `Except`.
-/

namespace Bookstore

/-- Modelled from the spec: CatalogItem is
`{title: string (unique key), category: string, price: decimal ≥ 0,
image_ref: string}`; the tests construct it as `Book(title, category,
price, image)`. Prices are decimals, embedded as rationals. -/
structure Book where
  title : String
  category : String
  price : Rat
  image : String
deriving DecidableEq, Repr

/-- Modelled from the spec: CartItem pairs one catalog item with a
quantity (`{item: CatalogItem (reference), quantity: integer ≥ 1}`);
the tests access it as `cart.items[title].book` / `.quantity`. -/
structure CartItem where
  book : Book
  quantity : Int
deriving DecidableEq, Repr

/-- Modelled from the spec: derived `line_total = item.price * quantity`. -/
def CartItem.line_total (ci : CartItem) : Rat :=
  ci.book.price * (ci.quantity : Rat)

/-- Modelled from the spec: Cart is `{items: mapping from item title →
CartItem}`; the Python dict is embedded as an association list keyed by
the book title. -/
structure Cart where
  items : List (String × CartItem)
deriving DecidableEq, Repr

/-- Error taxonomy of the spec's section 7 that the cart operations use:
`InvalidArgument` (null/missing required entity, e.g. adding a null item
to cart). -/
inductive CartError where
  | InvalidArgument
deriving DecidableEq, Repr

/-- A fresh cart: created empty per session. -/
def Cart.empty : Cart := ⟨[]⟩

/-- Lookup of a title in the cart's association list (the Python
`title in self.items` / `self.items[title]`). -/
def findEntry (items : List (String × CartItem)) (title : String) :
    Option CartItem :=
  (items.find? (fun p => p.1 = title)).map Prod.snd

/-- Modelled from the spec: `add(item, quantity)` — quantity must be a
positive integer; if the item's title already has an entry, quantities
accumulate (not overwrite); fails with `InvalidArgument` if `item` is
absent (null).  Argument errors leave the cart untouched (all-or-nothing
mutation, spec section 7). The tests call this method `add_book`. -/
def Cart.add_book (c : Cart) (book : Option Book) (quantity : Int) :
    Except CartError Cart :=
  match book with
  | none => .error .InvalidArgument
  | some b =>
    if quantity ≤ 0 then .error .InvalidArgument
    else
      match findEntry c.items b.title with
      | some _ =>
        .ok ⟨c.items.map (fun p =>
          if p.1 = b.title then
            (p.1, { p.2 with quantity := p.2.quantity + quantity })
          else p)⟩
      | none => .ok ⟨c.items ++ [(b.title, ⟨b, quantity⟩)]⟩

/-- Modelled from the spec: `update_quantity(title, quantity)` — sets
the quantity for an existing entry; quantity ≤ 0 removes the entry. -/
def Cart.update_quantity (c : Cart) (title : String) (quantity : Int) :
    Cart :=
  if quantity ≤ 0 then
    ⟨c.items.filter (fun p => p.1 ≠ title)⟩
  else
    ⟨c.items.map (fun p =>
      if p.1 = title then (p.1, { p.2 with quantity := quantity }) else p)⟩

/-- Modelled from the spec: `remove(title)` — removes the entry if
present; no-op (not an error) if absent. The tests call it
`remove_book`. -/
def Cart.remove_book (c : Cart) (title : String) : Cart :=
  ⟨c.items.filter (fun p => p.1 ≠ title)⟩

/-- Modelled from the spec: `clear()` empties all entries. -/
def Cart.clear (_c : Cart) : Cart := ⟨[]⟩

/-- Modelled from the spec: `get_total_price()` — sum over entries of
`line_total`; returns 0 for an empty cart. -/
def Cart.get_total_price (c : Cart) : Rat :=
  (c.items.map (fun p => p.2.line_total)).sum

/-- Modelled from the spec: `get_total_items()` — sum of quantities
across entries. -/
def Cart.get_total_items (c : Cart) : Int :=
  (c.items.map (fun p => p.2.quantity)).sum

/-- Modelled from the spec: `is_empty()` — true iff no entries. -/
def Cart.is_empty (c : Cart) : Bool := c.items.isEmpty

/-- The cart invariant of the spec's section 3: quantity is always ≥ 1
for any present entry. -/
def Cart.wf (c : Cart) : Prop :=
  ∀ p ∈ c.items, 1 ≤ p.2.quantity

instance (c : Cart) : Decidable c.wf := by
  unfold Cart.wf; infer_instance

/-- State-machine errors of the spec's section 7 raised by the order
confirmation step: confirming an unpaid or already-confirmed order. -/
inductive StateError where
  | AlreadyConfirmed
  | NotPaid
deriving DecidableEq, Repr

/-- Modelled from the spec: Order is an immutable snapshot of a
completed checkout — `{order_id, user_email, items (value copy),
shipping_info, payment_info, total_amount, order_date (set at
construction), status}` plus the `paid`/`confirmed`/`confirmed_at`
flags advanced by the checkout orchestrator.  Timestamps are embedded
as natural numbers supplied by the caller. -/
structure Order where
  order_id : String
  user_email : String
  items : List (String × CartItem)
  shipping_info : List (String × String)
  payment_info : List (String × String)
  total_amount : Rat
  order_date : Nat
  status : String
  paid : Bool
  confirmed : Bool
  confirmed_at : Option Nat
deriving DecidableEq, Repr

/-- Modelled from the spec: the `Order(order_id, user_email, items,
shipping_info, payment_info, total_amount)` constructor of `models.py`.
It stores the supplied values unchanged (the Order entity does not
self-validate, spec section 4.4), snapshots `items` as a value copy,
stamps `order_date` at construction, sets the reference system's loose
initial status label "Confirmed" (spec section 4.4 / section 9), and
starts with no payment recorded and no confirmation performed. -/
def Order.create (order_id user_email : String)
    (items : List (String × CartItem))
    (shipping_info payment_info : List (String × String))
    (total_amount : Rat) (now : Nat) : Order :=
  { order_id := order_id
    user_email := user_email
    items := items
    shipping_info := shipping_info
    payment_info := payment_info
    total_amount := total_amount
    order_date := now
    status := "Confirmed"
    paid := false
    confirmed := false
    confirmed_at := none }

/-- Modelled from the spec: the one-time confirmation step of the
`Created → Paid → Confirmed` state machine — confirming twice fails
(`AlreadyConfirmed`), confirming an unpaid order fails (`NotPaid`),
and a successful confirmation stamps a `confirmed_at` timestamp. -/
def Order.confirm (o : Order) (now : Nat) : Except StateError Order :=
  if o.confirmed then .error .AlreadyConfirmed
  else if !o.paid then .error .NotPaid
  else .ok { o with confirmed := true, confirmed_at := some now }

/-- A checkout session: the cart together with the orders constructed
so far.  Mutation of the Python objects is embedded as explicit state
passing on this record. -/
structure Session where
  cart : Cart
  orders : List Order
deriving DecidableEq, Repr

/-- The checkout orchestration of the spec's section 6: snapshot the
cart into an Order built from the cart's items and total. -/
def Session.checkout (s : Session) (order_id user_email : String)
    (shipping_info payment_info : List (String × String)) (now : Nat) :
    Session :=
  { s with
    orders := s.orders ++
      [Order.create order_id user_email s.cart.items shipping_info
        payment_info s.cart.get_total_price now] }

/-- Clearing the session's cart (the `cart.clear()` that follows a
successful checkout). -/
def Session.clearCart (s : Session) : Session :=
  { s with cart := s.cart.clear }

/-- Modelled from the spec: the salted one-way password hash used by the
`User` constructor (`security_test_demo.py` observes the stored value
starts with the `scrypt:` hash identifier).  The hash itself being
outside the repository, it is embedded as an injective tagging function:
what matters for the contract is that it is deterministic, collision-free
on the inputs considered, and never equal to its input. -/
def hash_password (pw : String) : String := "scrypt:" ++ pw

/-- Modelled from the spec: User is `{email, password_credential (opaque
hashed secret), name, address, order_history (append-only)}`; the tests
read the stored credential from the `password` attribute. -/
structure User where
  email : String
  password : String
  name : String
  address : String
  order_history : List Order
deriving DecidableEq, Repr

/-- Modelled from the spec: the `User(email, password, ...)` constructor
hashes the plaintext internally and never stores it. -/
def User.create (email pw : String) : User :=
  { email := email
    password := hash_password pw
    name := ""
    address := ""
    order_history := [] }

/-- Modelled from the spec: `check_password(candidate)` — comparison of
the candidate's hash against the stored hash; returns a boolean, never
throws on a wrong password. -/
def User.check_password (u : User) (candidate : String) : Bool :=
  hash_password candidate == u.password

/-- Modelled from the spec: `add_order(order)` appends to the history;
never overwrites. -/
def User.add_order (u : User) (o : Order) : User :=
  { u with order_history := u.order_history ++ [o] }

/-- The decimal digit `d` as a character (so `digitChar 5 = '5'`). -/
def digitChar (d : Nat) : Char := Char.ofNat (48 + d)

/-- Little-endian decimal digits of `n`, with an explicit fuel argument
so that the recursion is structural and evaluates inside the kernel. -/
def natDigitsAux : Nat → Nat → List Nat
  | 0, _ => []
  | _ + 1, 0 => []
  | fuel + 1, n + 1 => ((n + 1) % 10) :: natDigitsAux fuel ((n + 1) / 10)

/-- Little-endian decimal digits of `n` (`natDigits 120 = [0, 2, 1]`). -/
def natDigits (n : Nat) : List Nat := natDigitsAux n n

/-- Recombines little-endian decimal digits into the number they
denote; left inverse of `natDigits`. -/
def natFromDigits (l : List Nat) : Nat :=
  l.foldr (fun d acc => d + 10 * acc) 0

/-- Modelled from the spec: the fresh unique transaction identifier
generated by a successful `process_payment` call.  The generator being
outside the repository, freshness is embedded by threading a call
counter through the gateway and rendering it in decimal after a fixed
tag. -/
def mkTransactionId (n : Nat) : String :=
  "TXN-" ++ ((natDigits n).map digitChar).asString

/-- Modelled from the spec: the `payment_info` dictionary
`{payment_method, card_number?}` passed to `process_payment`; a `None`
card number is an absent one. -/
structure PaymentInfo where
  payment_method : String
  card_number : Option String
deriving DecidableEq, Repr

/-- Modelled from the spec: PaymentResult is `{success: boolean,
transaction_id: string | absent}`. -/
structure PaymentResult where
  success : Bool
  transaction_id : Option String
deriving DecidableEq, Repr

/-- Modelled from the spec: the basic length/format check on a card
number — 16 numeric digits. -/
def isValidCardNumber (s : String) : Bool :=
  s.data.length == 16 && s.data.all Char.isDigit

namespace PaymentGateway

/-- Modelled from the spec: `process_payment(payment_info)` — for `cash`
always succeeds; for `credit_card`, succeeds only if `card_number` is
present and passes the 16-numeric-digit check.  On success returns
`{success: true, transaction_id: <fresh unique id>}`, on failure
`{success: false}` with no transaction id; malformed input is a failure
result, not an exception.  The gateway is stateless beyond generating a
fresh transaction id, embedded as the threaded counter. -/
def process_payment (info : PaymentInfo) (counter : Nat) :
    PaymentResult × Nat :=
  if info.payment_method = "cash" then
    ({ success := true, transaction_id := some (mkTransactionId counter) },
      counter + 1)
  else if info.payment_method = "credit_card" then
    match info.card_number with
    | some cn =>
      if isValidCardNumber cn then
        ({ success := true,
           transaction_id := some (mkTransactionId counter) }, counter + 1)
      else ({ success := false, transaction_id := none }, counter)
    | none => ({ success := false, transaction_id := none }, counter)
  else ({ success := false, transaction_id := none }, counter)

/-- Modelled from the spec: `mask_card_number(card_number)` — returns
`"**** **** **** " + last 4 digits` when the input is a digit string of
length ≥ 4; returns the literal sentinel `"Invalid card number"` for
empty or absent input (without raising); for non-empty digit strings
shorter than 4 returns the input unchanged; non-digit input also gets
the sentinel (the check the test suite's local reimplementation uses,
`not card_number or not card_number.isdigit()`). -/
def mask_card_number (card_number : Option String) : String :=
  match card_number with
  | none => "Invalid card number"
  | some s =>
    if s.data.isEmpty then "Invalid card number"
    else if !s.data.all Char.isDigit then "Invalid card number"
    else if s.data.length < 4 then s
    else "**** **** **** " ++ ⟨s.data.drop (s.data.length - 4)⟩

end PaymentGateway

/-- A sample catalog item used to instantiate the general theorems on
concrete data. -/
def bookA : Book := ⟨"Book A", "Fiction", 10, "imgA"⟩

/-- A second sample catalog item with a different title. -/
def bookB : Book := ⟨"Book B", "Science", 7, "imgB"⟩

/-! ### Helper lemmas -/

theorem natFromDigits_natDigitsAux :
    ∀ fuel n, n ≤ fuel → natFromDigits (natDigitsAux fuel n) = n := by
  intro fuel
  induction fuel with
  | zero => intro n h; interval_cases n; rfl
  | succ f ih =>
    intro n h
    match n with
    | 0 => rfl
    | k + 1 =>
      have hdiv : (k + 1) / 10 ≤ f := by
        have := Nat.div_lt_self (Nat.succ_pos k) (by omega : 1 < 10)
        omega
      simp only [natDigitsAux, natFromDigits, List.foldr] at *
      rw [ih _ hdiv]
      omega

theorem natFromDigits_natDigits (n : Nat) :
    natFromDigits (natDigits n) = n :=
  natFromDigits_natDigitsAux n n le_rfl

theorem natDigits_inj {m n : Nat} (h : natDigits m = natDigits n) :
    m = n := by
  rw [← natFromDigits_natDigits m, ← natFromDigits_natDigits n, h]

theorem natDigitsAux_lt :
    ∀ fuel n, ∀ d ∈ natDigitsAux fuel n, d < 10 := by
  intro fuel
  induction fuel with
  | zero => intro n d hd; simp [natDigitsAux] at hd
  | succ f ih =>
    intro n d hd
    match n with
    | 0 => simp [natDigitsAux] at hd
    | k + 1 =>
      simp only [natDigitsAux, List.mem_cons] at hd
      rcases hd with h | h
      · omega
      · exact ih _ _ h

theorem digitChar_inj_of_lt :
    ∀ a, a < 10 → ∀ b, b < 10 → digitChar a = digitChar b → a = b := by
  decide

theorem map_digitChar_inj :
    ∀ (l₁ l₂ : List Nat), (∀ d ∈ l₁, d < 10) → (∀ d ∈ l₂, d < 10) →
      l₁.map digitChar = l₂.map digitChar → l₁ = l₂ := by
  intro l₁
  induction l₁ with
  | nil => intro l₂ _ _ h; cases l₂ <;> simp_all
  | cons a t ih =>
    intro l₂ h₁ h₂ h
    cases l₂ with
    | nil => simp at h
    | cons b t' =>
      simp only [List.map_cons, List.cons.injEq] at h
      have ha : a = b :=
        digitChar_inj_of_lt a (h₁ a (by simp)) b (h₂ b (by simp)) h.1
      have ht : t = t' :=
        ih t' (fun d hd => h₁ d (by simp [hd]))
          (fun d hd => h₂ d (by simp [hd])) h.2
      rw [ha, ht]

theorem mkTransactionId_data (n : Nat) :
    (mkTransactionId n).data =
      'T' :: 'X' :: 'N' :: '-' :: ((natDigits n).map digitChar) := rfl

theorem mkTransactionId_inj {m n : Nat}
    (h : mkTransactionId m = mkTransactionId n) : m = n := by
  have hd := congrArg String.data h
  rw [mkTransactionId_data, mkTransactionId_data] at hd
  simp only [List.cons.injEq, true_and] at hd
  exact natDigits_inj
    (map_digitChar_inj _ _ (natDigitsAux_lt m m) (natDigitsAux_lt n n) hd)

theorem mkTransactionId_ne_empty (n : Nat) : mkTransactionId n ≠ "" := by
  intro h
  have hd := congrArg String.data h
  rw [mkTransactionId_data] at hd
  simp at hd

/-- `findEntry` misses a title exactly when no entry carries it. -/
theorem findEntry_eq_none_iff {items : List (String × CartItem)}
    {title : String} :
    findEntry items title = none ↔ ∀ p ∈ items, p.1 ≠ title := by
  simp [findEntry, Option.map_eq_none', List.find?_eq_none]

/-- Adding a title that is not yet in the cart appends a fresh entry. -/
theorem add_book_fresh (c : Cart) (b : Book) (q : Int) (hq : 0 < q)
    (h : findEntry c.items b.title = none) :
    c.add_book (some b) q = .ok ⟨c.items ++ [(b.title, ⟨b, q⟩)]⟩ := by
  simp only [Cart.add_book, h]
  rw [if_neg (by omega)]

/-- A map that fixes every element of a list leaves it unchanged. -/
theorem map_eq_self_of {α : Type} {l : List α} {f : α → α}
    (h : ∀ x ∈ l, f x = x) : l.map f = l := by
  induction l with
  | nil => rfl
  | cons a t ih =>
    simp only [List.map_cons, h a (by simp)]
    rw [ih (fun x hx => h x (by simp [hx]))]

/-- Adding a second batch of the same title accumulates quantities. -/
theorem add_book_accum (c : Cart) (b : Book) (q1 q2 : Int) (hq2 : 0 < q2)
    (h : findEntry c.items b.title = none) :
    (Cart.mk (c.items ++ [(b.title, ⟨b, q1⟩)])).add_book (some b) q2 =
      .ok ⟨c.items ++ [(b.title, ⟨b, q1 + q2⟩)]⟩ := by
  have hall : ∀ p ∈ c.items, p.1 ≠ b.title := findEntry_eq_none_iff.mp h
  have hf0 : c.items.find? (fun p => p.1 = b.title) = none := by
    simpa [findEntry, Option.map_eq_none'] using h
  have hfind :
      findEntry (c.items ++ [(b.title, ⟨b, q1⟩)]) b.title = some ⟨b, q1⟩ := by
    simp [findEntry, List.find?_append, hf0]
  simp only [Cart.add_book, hfind]
  rw [if_neg (by omega)]
  congr 2
  rw [List.map_append,
    map_eq_self_of (fun p hp => by simp [hall p hp]), List.map_cons]
  simp

theorem hash_password_data (pw : String) :
    (hash_password pw).data =
      's' :: 'c' :: 'r' :: 'y' :: 'p' :: 't' :: ':' :: pw.data := rfl

theorem hash_password_inj {a b : String}
    (h : hash_password a = hash_password b) : a = b := by
  have hd := congrArg String.data h
  rw [hash_password_data, hash_password_data] at hd
  simp only [List.cons.injEq, true_and] at hd
  exact String.ext hd

theorem hash_password_ne (pw : String) : hash_password pw ≠ pw := by
  intro h
  have hd := congrArg String.data h
  rw [hash_password_data] at hd
  have hlen := congrArg List.length hd
  simp only [List.length_cons] at hlen
  omega

/-! ### Claim theorems -/

/-- C1 (amended): for every cart that does not already contain an entry
for the item's title and all positive quantities `q1`, `q2`, calling
`add(item, q1)` and then `add(item, q2)` leaves exactly one entry for
the item's title, that entry's quantity is `q1 + q2` (quantities
accumulate, they do not overwrite), and `get_total_price()` afterwards
returns the cart's previous total plus `item.price * (q1 + q2)`. -/
theorem add_twice_accumulates (c : Cart) (b : Book) (q1 q2 : Int)
    (h1 : 0 < q1) (h2 : 0 < q2)
    (habs : findEntry c.items b.title = none) :
    ∃ c₁ c₂,
      c.add_book (some b) q1 = .ok c₁ ∧
      c₁.add_book (some b) q2 = .ok c₂ ∧
      (c₂.items.filter (fun p => p.1 == b.title)).length = 1 ∧
      findEntry c₂.items b.title = some ⟨b, q1 + q2⟩ ∧
      c₂.get_total_price =
        c.get_total_price + b.price * ((q1 + q2 : Int) : Rat) ∧
      c₂.get_total_items = c.get_total_items + (q1 + q2) := by
  have hall : ∀ p ∈ c.items, p.1 ≠ b.title := findEntry_eq_none_iff.mp habs
  have hf0 : c.items.find? (fun p => p.1 = b.title) = none := by
    simpa [findEntry, Option.map_eq_none'] using habs
  refine ⟨⟨c.items ++ [(b.title, ⟨b, q1⟩)]⟩,
    ⟨c.items ++ [(b.title, ⟨b, q1 + q2⟩)]⟩,
    add_book_fresh c b q1 h1 habs, add_book_accum c b q1 q2 h2 habs,
    ?_, ?_, ?_, ?_⟩
  · rw [List.filter_append,
      List.filter_eq_nil_iff.mpr (fun p hp => by simp [hall p hp])]
    simp
  · simp [findEntry, List.find?_append, hf0]
  · simp only [Cart.get_total_price, List.map_append, List.sum_append,
      List.map_cons, List.map_nil, List.sum_cons, List.sum_nil,
      CartItem.line_total]
    push_cast
    ring
  · simp only [Cart.get_total_items, List.map_append, List.sum_append,
      List.map_cons, List.map_nil, List.sum_cons, List.sum_nil]
    ring

/-- C1 witness: the amended accumulation theorem instantiated on an
empty cart, `q1 = 1`, `q2 = 2`. -/
theorem add_twice_accumulates_witness :
    ∃ c₁ c₂,
      Cart.empty.add_book (some bookA) 1 = .ok c₁ ∧
      c₁.add_book (some bookA) 2 = .ok c₂ ∧
      (c₂.items.filter (fun p => p.1 == bookA.title)).length = 1 ∧
      findEntry c₂.items bookA.title = some ⟨bookA, 1 + 2⟩ ∧
      c₂.get_total_price =
        Cart.empty.get_total_price + bookA.price * ((1 + 2 : Int) : Rat) ∧
      c₂.get_total_items = Cart.empty.get_total_items + (1 + 2) :=
  add_twice_accumulates Cart.empty bookA 1 2 (by decide) (by decide) rfl

/-- C1 counterexample: the claim quantifies over *every* cart, but on a
cart that already holds the item's title with quantity 1, the sequence
`add(item, 1)`, `add(item, 2)` leaves the entry at quantity 4, not
`q1 + q2 = 3`, and the total price is `price * 4`, not `price * 3`. -/
theorem add_twice_arbitrary_cart_counterexample :
    ((Cart.mk [("Book A", ⟨bookA, 1⟩)]).add_book (some bookA) 1).bind
        (fun c => c.add_book (some bookA) 2) =
      .ok (Cart.mk [("Book A", ⟨bookA, 4⟩)]) ∧
    findEntry [("Book A", ⟨bookA, 4⟩)] "Book A" ≠ some ⟨bookA, 1 + 2⟩ ∧
    (Cart.mk [("Book A", ⟨bookA, 4⟩)]).get_total_price ≠
      bookA.price * ((1 + 2 : Int) : Rat) := by
  refine ⟨rfl, by decide, ?_⟩
  norm_num [Cart.get_total_price, CartItem.line_total, bookA]

/-- C8: every cart operation preserves the invariant that every present
entry has quantity at least 1: an `add_book` that returns a cart
preserves it, `update_quantity` preserves it and removes the entry
when given a quantity ≤ 0, and `remove_book` and `clear` preserve
it. -/
theorem cart_quantity_invariant (c : Cart) (hwf : c.wf) :
    (∀ (b : Option Book) (q : Int) (c' : Cart),
        c.add_book b q = .ok c' → c'.wf) ∧
    (∀ (title : String) (q : Int), (c.update_quantity title q).wf) ∧
    (∀ (title : String) (q : Int), q ≤ 0 →
        findEntry (c.update_quantity title q).items title = none) ∧
    (∀ title : String, (c.remove_book title).wf) ∧
    c.clear.wf := by
  refine ⟨?_, ?_, ?_, ?_, ?_⟩
  · intro b q c' h
    match b with
    | none => simp [Cart.add_book] at h
    | some bk =>
      by_cases hq : q ≤ 0
      · simp [Cart.add_book, hq] at h
      · simp only [Cart.add_book, if_neg hq] at h
        match hfind : findEntry c.items bk.title with
        | some _ =>
          rw [hfind] at h
          cases h
          intro p hp
          simp only [List.mem_map] at hp
          obtain ⟨p₀, hp₀, rfl⟩ := hp
          by_cases ht : p₀.1 = bk.title
          · simp only [if_pos ht]
            have := hwf p₀ hp₀
            omega
          · simpa [if_neg ht] using hwf p₀ hp₀
        | none =>
          rw [hfind] at h
          cases h
          intro p hp
          simp only [List.mem_append, List.mem_singleton] at hp
          rcases hp with hp | rfl
          · exact hwf p hp
          · simpa using by omega
  · intro title q
    by_cases hq : q ≤ 0
    · simp only [Cart.update_quantity, if_pos hq]
      intro p hp
      exact hwf p (List.mem_of_mem_filter hp)
    · simp only [Cart.update_quantity, if_neg hq]
      intro p hp
      simp only [List.mem_map] at hp
      obtain ⟨p₀, hp₀, rfl⟩ := hp
      by_cases ht : p₀.1 = title
      · simp only [if_pos ht]
        omega
      · simpa [if_neg ht] using hwf p₀ hp₀
  · intro title q hq
    simp only [Cart.update_quantity, if_pos hq]
    rw [findEntry_eq_none_iff]
    intro p hp
    have := List.of_mem_filter hp
    simpa using this
  · intro title
    intro p hp
    exact hwf p (List.mem_of_mem_filter hp)
  · intro p hp
    simp [Cart.clear] at hp

/-- C8 witness: the invariant theorem instantiated on a concrete
well-formed one-entry cart. -/
theorem cart_quantity_invariant_witness :
    (∀ (b : Option Book) (q : Int) (c' : Cart),
        (Cart.mk [("Book A", ⟨bookA, 2⟩)]).add_book b q = .ok c' →
          c'.wf) ∧
    (∀ (title : String) (q : Int),
        ((Cart.mk [("Book A", ⟨bookA, 2⟩)]).update_quantity title q).wf) ∧
    (∀ (title : String) (q : Int), q ≤ 0 →
        findEntry
          ((Cart.mk [("Book A", ⟨bookA, 2⟩)]).update_quantity title q).items
          title = none) ∧
    (∀ title : String,
        ((Cart.mk [("Book A", ⟨bookA, 2⟩)]).remove_book title).wf) ∧
    (Cart.mk [("Book A", ⟨bookA, 2⟩)]).clear.wf :=
  cart_quantity_invariant (Cart.mk [("Book A", ⟨bookA, 2⟩)]) (by decide)

/-- C2: for every session with a non-empty cart, checking out (which
constructs an Order from the cart's items and total) and then clearing
the cart leaves the constructed Order unchanged: the orders list is
untouched by the clear, the new Order's `items` equal the cart's items
and its `total_amount` equals the cart's total as they were at checkout
time, and the cart is empty afterwards. -/
theorem order_snapshot_independent (s : Session) (oid email : String)
    (ship pay : List (String × String)) (now : Nat)
    (_hne : s.cart.is_empty = false) :
    ((s.checkout oid email ship pay now).clearCart).orders =
      (s.checkout oid email ship pay now).orders ∧
    (∃ o : Order,
      (s.checkout oid email ship pay now).orders = s.orders ++ [o] ∧
      o.items = s.cart.items ∧
      o.total_amount = s.cart.get_total_price) ∧
    ((s.checkout oid email ship pay now).clearCart).cart.is_empty = true :=
  ⟨rfl,
    ⟨Order.create oid email s.cart.items ship pay s.cart.get_total_price
        now, rfl, rfl, rfl⟩,
    rfl⟩

/-- C2 witness: snapshot independence on a concrete one-item session. -/
theorem order_snapshot_independent_witness :
    (((Session.mk ⟨[("Book A", ⟨bookA, 2⟩)]⟩ []).checkout "ORD9" "a@b.c"
          [] [] 0).clearCart).orders =
      ((Session.mk ⟨[("Book A", ⟨bookA, 2⟩)]⟩ []).checkout "ORD9" "a@b.c"
          [] [] 0).orders ∧
    (∃ o : Order,
      ((Session.mk ⟨[("Book A", ⟨bookA, 2⟩)]⟩ []).checkout "ORD9" "a@b.c"
          [] [] 0).orders = [] ++ [o] ∧
      o.items = [("Book A", ⟨bookA, 2⟩)] ∧
      o.total_amount = (Cart.mk [("Book A", ⟨bookA, 2⟩)]).get_total_price) ∧
    (((Session.mk ⟨[("Book A", ⟨bookA, 2⟩)]⟩ []).checkout "ORD9" "a@b.c"
          [] [] 0).clearCart).cart.is_empty = true :=
  order_snapshot_independent (Session.mk ⟨[("Book A", ⟨bookA, 2⟩)]⟩ [])
    "ORD9" "a@b.c" [] [] 0 rfl

/-- C3: for credit-card payment info, `process_payment` reports success
exactly when a card number is present and passes the 16-numeric-digit
check; any other card number yields a `success = false` result value
(the gateway is a total function into results, not an exception). -/
theorem credit_card_payment_validation (info : PaymentInfo)
    (counter : Nat) (h : info.payment_method = "credit_card") :
    (PaymentGateway.process_payment info counter).1.success = true ↔
      ∃ cn, info.card_number = some cn ∧ isValidCardNumber cn = true := by
  rcases hcn : info.card_number with _ | cn
  · simp [PaymentGateway.process_payment, h, hcn]
  · by_cases hv : isValidCardNumber cn = true
    · simp [PaymentGateway.process_payment, h, hcn, hv]
    · simp [PaymentGateway.process_payment, h, hcn,
        Bool.not_eq_true _ ▸ hv]

/-- C3 witness: a 3-digit card number is rejected with a failure
result. -/
theorem credit_card_payment_validation_witness :
    (PaymentGateway.process_payment ⟨"credit_card", some "123"⟩ 0).1.success
      = false := by
  have h := credit_card_payment_validation ⟨"credit_card", some "123"⟩ 0 rfl
  cases hs :
    (PaymentGateway.process_payment ⟨"credit_card", some "123"⟩ 0).1.success
  · rfl
  · obtain ⟨cn, hcn, hv⟩ := h.mp hs
    obtain rfl : "123" = cn := by injection hcn
    exact absurd hv (by decide)

/-- C4: a cash payment with no card number always succeeds, the result
carries a present, non-empty transaction id, and the gateway's threaded
counter advances so that distinct calls receive distinct transaction
ids. -/
theorem cash_payment_success_fresh_id (counter m n : Nat) (hmn : m ≠ n) :
    (PaymentGateway.process_payment ⟨"cash", none⟩ counter).1.success
      = true ∧
    (PaymentGateway.process_payment ⟨"cash", none⟩ counter).1.transaction_id
      = some (mkTransactionId counter) ∧
    mkTransactionId counter ≠ "" ∧
    (PaymentGateway.process_payment ⟨"cash", none⟩ counter).2
      = counter + 1 ∧
    mkTransactionId m ≠ mkTransactionId n :=
  ⟨rfl, rfl, mkTransactionId_ne_empty counter, rfl,
    fun h => hmn (mkTransactionId_inj h)⟩

/-- C4 witness: the cash-payment theorem at counter 0 and the distinct
call counters 0 and 1. -/
theorem cash_payment_success_fresh_id_witness :
    (PaymentGateway.process_payment ⟨"cash", none⟩ 0).1.success = true ∧
    (PaymentGateway.process_payment ⟨"cash", none⟩ 0).1.transaction_id
      = some (mkTransactionId 0) ∧
    mkTransactionId 0 ≠ "" ∧
    (PaymentGateway.process_payment ⟨"cash", none⟩ 0).2 = 0 + 1 ∧
    mkTransactionId 0 ≠ mkTransactionId 1 :=
  cash_payment_success_fresh_id 0 0 1 (by decide)

/-- C5: `mask_card_number` returns `"**** **** **** "` followed by the
last 4 digits on every digit string of length at least 4 (so the
16-digit example masks to `"**** **** **** 5678"`), returns the literal
sentinel `"Invalid card number"` for empty and for absent input, and
returns every non-empty digit string shorter than 4 unchanged. -/
theorem mask_card_number_spec :
    (∀ s : String, s.data ≠ [] → s.data.all Char.isDigit = true →
        4 ≤ s.data.length →
        PaymentGateway.mask_card_number (some s) =
          "**** **** **** " ++
            String.mk (s.data.drop (s.data.length - 4))) ∧
    PaymentGateway.mask_card_number (some "1234567812345678") =
      "**** **** **** 5678" ∧
    PaymentGateway.mask_card_number (some "") = "Invalid card number" ∧
    PaymentGateway.mask_card_number none = "Invalid card number" ∧
    (∀ s : String, s.data ≠ [] → s.data.all Char.isDigit = true →
        s.data.length < 4 →
        PaymentGateway.mask_card_number (some s) = s) := by
  refine ⟨?_, by decide, rfl, rfl, ?_⟩
  · intro s h1 h2 h3
    simp only [PaymentGateway.mask_card_number]
    rw [if_neg (by simp [List.isEmpty_iff, h1]), if_neg (by simp [h2]),
      if_neg (by omega)]
  · intro s h1 h2 h3
    simp only [PaymentGateway.mask_card_number]
    rw [if_neg (by simp [List.isEmpty_iff, h1]), if_neg (by simp [h2]),
      if_pos h3]

/-- C5 witness: the masking theorem applied to the short digit strings
`"9876"` (masked) and `"12"` (returned unchanged). -/
theorem mask_card_number_spec_witness :
    PaymentGateway.mask_card_number (some "9876") =
      "**** **** **** " ++
        String.mk (("9876" : String).data.drop
          (("9876" : String).data.length - 4)) ∧
    PaymentGateway.mask_card_number (some "12") = "12" :=
  ⟨mask_card_number_spec.1 "9876" (by decide) (by decide) (by decide),
    mask_card_number_spec.2.2.2.2 "12" (by decide) (by decide)
      (by decide)⟩

/-- C6: order confirmation is one-time and gated on payment — an unpaid
order's confirmation fails with a `StateError`, while a paid,
not-yet-confirmed order confirms successfully, gets its `confirmed_at`
timestamp stamped, and a second confirmation attempt fails with
`AlreadyConfirmed`. -/
theorem order_confirmation_gating (o : Order) (t t' : Nat) :
    (o.paid = false → ∃ e : StateError, o.confirm t = .error e) ∧
    (o.paid = true → o.confirmed = false →
      ∃ o' : Order, o.confirm t = .ok o' ∧ o'.confirmed_at = some t ∧
        o'.confirmed = true ∧
        o'.confirm t' = .error StateError.AlreadyConfirmed) := by
  constructor
  · intro hp
    by_cases hc : o.confirmed = true
    · exact ⟨.AlreadyConfirmed, by simp [Order.confirm, hc]⟩
    · exact ⟨.NotPaid,
        by simp [Order.confirm, Bool.not_eq_true _ ▸ hc, hp]⟩
  · intro hp hc
    refine ⟨{ o with confirmed := true, confirmed_at := some t },
      ?_, rfl, rfl, ?_⟩
    · simp [Order.confirm, hc, hp]
    · simp [Order.confirm]

/-- C6 witness: the gating theorem applied to a concrete unpaid order
and to a concrete paid order. -/
theorem order_confirmation_gating_witness :
    (∃ e : StateError,
      (Order.create "ORD2" "u@e.f" [] [] [] 5 0).confirm 3 = .error e) ∧
    (∃ o' : Order,
      ({ Order.create "ORD1" "u@e.f" [("Book A", ⟨bookA, 1⟩)] [] [] 10 0
          with paid := true } : Order).confirm 7 = .ok o' ∧
      o'.confirmed_at = some 7 ∧ o'.confirmed = true ∧
      o'.confirm 8 = .error StateError.AlreadyConfirmed) :=
  ⟨(order_confirmation_gating
      (Order.create "ORD2" "u@e.f" [] [] [] 5 0) 3 3).1 rfl,
    (order_confirmation_gating
      ({ Order.create "ORD1" "u@e.f" [("Book A", ⟨bookA, 1⟩)] [] [] 10 0
          with paid := true }) 7 8).2 rfl rfl⟩

/-- C7: a freshly constructed user accepts their own password and
rejects every other candidate, `check_password` returning a boolean,
and the stored credential is never the plaintext password. -/
theorem user_password_check (email pw candidate : String) :
    (User.create email pw).check_password pw = true ∧
    (candidate ≠ pw →
      (User.create email pw).check_password candidate = false) ∧
    (User.create email pw).password ≠ pw := by
  refine ⟨?_, ?_, hash_password_ne pw⟩
  · simp [User.check_password, User.create]
  · intro hne
    rw [User.check_password]
    exact beq_eq_false_iff_ne.mpr fun h => hne (hash_password_inj h)

/-- C7 witness: the password theorem on a concrete user with a wrong
candidate password. -/
theorem user_password_check_witness :
    (User.create "demo@example.com" "SecurePass123").check_password
      "SecurePass123" = true ∧
    ("WrongPassword" ≠ "SecurePass123" →
      (User.create "demo@example.com" "SecurePass123").check_password
        "WrongPassword" = false) ∧
    (User.create "demo@example.com" "SecurePass123").password ≠
      "SecurePass123" :=
  user_password_check "demo@example.com" "SecurePass123" "WrongPassword"

/-- C9: a newly constructed order starts in the `Created` state of the
`Created → Paid → Confirmed` machine: no payment recorded, no
confirmation performed, no confirmation timestamp. -/
theorem order_initial_state (oid email : String)
    (items : List (String × CartItem))
    (ship pay : List (String × String)) (total : Rat) (now : Nat) :
    (Order.create oid email items ship pay total now).paid = false ∧
    (Order.create oid email items ship pay total now).confirmed
      = false ∧
    (Order.create oid email items ship pay total now).confirmed_at
      = none :=
  ⟨rfl, rfl, rfl⟩

/-- C10: the Order constructor does not validate its arguments — for
every supplied tuple, including an empty order id, empty email, empty
items and a non-positive total, construction succeeds (it is a total
function) and the resulting order stores the supplied values
unchanged. -/
theorem order_constructor_no_validation (oid email : String)
    (items : List (String × CartItem))
    (ship pay : List (String × String)) (total : Rat) (now : Nat) :
    ((Order.create oid email items ship pay total now).order_id = oid ∧
      (Order.create oid email items ship pay total now).user_email
        = email ∧
      (Order.create oid email items ship pay total now).items = items ∧
      (Order.create oid email items ship pay total now).total_amount
        = total) ∧
    ((Order.create "" "" [] [] [] (-10) 0).order_id = "" ∧
      (Order.create "" "" [] [] [] (-10) 0).total_amount = -10) :=
  ⟨⟨rfl, rfl, rfl, rfl⟩, ⟨rfl, rfl⟩⟩

end Bookstore
